import Mathlib

/-!
Shallow embedding of the Qingping CGAU payload parser
(`apps/qingping_mqtt_parser.py`, class `QingpingMqttParser`).

Modelling conventions:
* Python `bytes` values are lists of naturals (each byte < 256 in real frames);
  slicing `payload[a:b]` clamps, as in Python.
* Python `float` arithmetic is modelled by exact rationals.  Every value this
  parser feeds through floats is of the form `n / 10` with `n < 2^16`, a range
  in which IEEE-754 double division by 10, `round(x, 1)` and `int(x)` agree
  exactly with the corresponding exact-rational operations, so the model is
  faithful on the whole input domain.
* The diagnostic/log side channel (`self.log(...)` calls) is modelled as an
  emitted list of `LogEvent` values carrying the logged data; the textual
  formatting of a message is irrelevant to the decoded result.
* Component invocations (the dumper `debug_payload`, the header check, and the
  extractor `_find_sensor_triple`) are additionally recorded in a `calls`
  trace so that "component X was not invoked" is statable.
* No operation reachable from `parse_payload` can raise in Python (slicing and
  `int.from_bytes` are total; the dumper only formats), so the `try/except`
  wrapper is modelled by a total function.
-/

namespace Qingping

/-- Python bytes: a list of byte values. -/
abbrev Bytes := List Nat

/-- Python slice `payload[a:b]` for `0 ≤ a ≤ b`: out-of-range indices clamp,
never raising. -/
def pySlice (xs : Bytes) (a b : Nat) : Bytes := (xs.drop a).take (b - a)

/-- Python `int.from_bytes(bs, "little")`: little-endian base-256 value;
the empty byte string yields 0. -/
def intFromBytesLE (bs : Bytes) : Nat := bs.foldr (fun b acc => b + 256 * acc) 0

/-- The magic header `b"CGAU"` (ASCII codes of C, G, A, U). -/
def cgau : Bytes := [67, 71, 65, 85]

/-- Python `int(q)`: truncation toward zero. -/
def pyIntTrunc (q : ℚ) : ℤ := if 0 ≤ q then ⌊q⌋ else -⌊-q⌋

/-- Python `round(q, 1)` on the exact-rational model of the float `q`:
round `q * 10` to the nearest integer and divide back by 10.  For the values
this parser rounds, `q * 10` is an integer, so the result does not depend on
the tie-breaking rule (half-even versus half-away-from-zero). -/
def pyRound1 (q : ℚ) : ℚ := (round (q * 10) : ℚ) / 10

/-- Line 54 of the source: `temperature = round(t_raw / 10.0, 1)`. -/
def temperature (t_raw : Nat) : ℚ := pyRound1 ((t_raw : ℚ) / 10)

/-- Line 56 of the source: `humidity = int(h_raw / 10)`. -/
def humidity (h_raw : Nat) : ℤ := pyIntTrunc ((h_raw : ℚ) / 10)

/-- Method `_find_sensor_triple` (lines 113-118): fixed offset 13, three
uint16 little-endian reads from slices `[13:15]`, `[15:17]`, `[17:19]`.
The slices clamp to the frame, so a short frame yields shortened (possibly
empty) byte strings and hence small (possibly zero) raw values.  The method
always returns a 4-tuple, which is truthy in Python, so the caller's
`if found:` branch is always taken. -/
def findSensorTriple (payload : Bytes) : Nat × Nat × Nat × Nat :=
  let offset := 13
  let t_raw := intFromBytesLE (pySlice payload offset (offset + 2))
  let h_raw := intFromBytesLE (pySlice payload (offset + 2) (offset + 4))
  let co2_raw := intFromBytesLE (pySlice payload (offset + 4) (offset + 6))
  (offset, t_raw, h_raw, co2_raw)

/-- Values stored in the `sensor` sub-dictionary. -/
inductive SVal
  | int (n : ℤ)
  | rat (q : ℚ)
deriving DecidableEq

/-- Values stored in the top-level result dictionary. -/
inductive TopVal
  | dict (entries : List (String × SVal))
  | list (xs : List SVal)
  | none
deriving DecidableEq

/-- Events on the diagnostic/log channel, carrying the logged data.
`noTripleFound` models the fallback log on line 68; it is unreachable
because `_find_sensor_triple` always returns a truthy 4-tuple. -/
inductive LogEvent
  | analysisHeader
  | payloadLine (p : Bytes)
  | hexLine (p : Bytes)
  | lengthLine (n : Nat)
  | sectionCountLine (n : Nat)
  | sectionLine (i : Nat) (sec : Bytes) (readable : String)
  | analysisFooter
  | unknownHeader (hdr : Bytes)
  | noTripleFound
deriving DecidableEq

/-- The three components of the pipeline whose invocation is traced. -/
inductive Comp
  | dumper
  | validator
  | extractor
deriving DecidableEq

/-- Lower-case hexadecimal digit. -/
def hexDigit (n : Nat) : Char :=
  if n < 10 then Char.ofNat (48 + n) else Char.ofNat (87 + n)

/-- Method `_bytes_to_readable` applied to one byte: printable ASCII
(32-126) renders as the character, anything else as a two-hex-digit
escape. -/
def byteToReadable (b : Nat) : String :=
  if 32 ≤ b ∧ b < 127 then String.singleton (Char.ofNat b)
  else
    String.singleton '\\' ++ String.singleton 'x'
      ++ String.singleton (hexDigit (b / 16)) ++ String.singleton (hexDigit (b % 16))

/-- Method `_bytes_to_readable` (lines 174-182). -/
def bytesToReadable (data : Bytes) : String :=
  String.join (data.map byteToReadable)

/-- Python `payload.split(b"\x00")`: split on NUL bytes, keeping empty
sections. -/
def splitOnZero : Bytes → List Bytes
  | [] => [[]]
  | 0 :: rest => [] :: splitOnZero rest
  | b :: rest =>
    match splitOnZero rest with
    | [] => [[b]]
    | s :: ss => (b :: s) :: ss

/-- Method `debug_payload` (lines 158-172): the sequence of log events it
emits.  It only reads the frame and logs; it returns nothing. -/
def debugPayload (payload : Bytes) : List LogEvent :=
  let sections := splitOnZero payload
  [LogEvent.analysisHeader, LogEvent.payloadLine payload, LogEvent.hexLine payload,
    LogEvent.lengthLine payload.length, LogEvent.sectionCountLine sections.length]
    ++ sections.enum.map (fun p => LogEvent.sectionLine p.1 p.2 (bytesToReadable p.2))
    ++ [LogEvent.analysisFooter]

/-- Outcome of one `parse_payload` call: the returned dictionary, the log
events emitted, and the components invoked. -/
structure ParseOut where
  result : List (String × TopVal)
  log : List LogEvent
  calls : List Comp
deriving DecidableEq

/-- The canonical empty result dictionary (lines 37 and 42):
`{"sensor": {}, "device_info": {}, "historical_data": [], "timestamp": None}`. -/
def emptyResult : List (String × TopVal) :=
  [("sensor", TopVal.dict []), ("device_info", TopVal.dict []),
    ("historical_data", TopVal.list []), ("timestamp", TopVal.none)]

/-- The `sensor` dictionary built by the `result["sensor"].update({...})`
call on lines 57-65, in source order. -/
def sensorEntries (offset t_raw h_raw co2_raw : Nat) : List (String × SVal) :=
  [("temperature", SVal.rat (temperature t_raw)),
    ("temperature_raw", SVal.int t_raw),
    ("humidity", SVal.int (humidity h_raw)),
    ("humidity_raw", SVal.int h_raw),
    ("co2_ppm", SVal.int co2_raw),
    ("co2_raw", SVal.int co2_raw),
    ("sensor_offset_bytes", SVal.int offset)]

/-- Method `parse_payload` (lines 34-75).  An empty (or `None`, equally
falsy) payload returns the empty shape before anything else runs; then the
dumper runs when `debug_mode` is set; then the header is compared with
`CGAU`; on a match the extractor runs and the sensor dictionary is
populated (the extractor's 4-tuple is always truthy, so the fallback branch
on line 68 is dead).  No reachable operation raises, so the `try/except`
never fires. -/
def parsePayload (debugMode : Bool) (payload : Bytes) : ParseOut :=
  if payload = [] then ⟨emptyResult, [], []⟩
  else
    let dumpLog := if debugMode then debugPayload payload else []
    let dumpCalls := if debugMode then [Comp.dumper] else []
    if pySlice payload 0 4 ≠ cgau then
      ⟨emptyResult, dumpLog ++ [LogEvent.unknownHeader (pySlice payload 0 4)],
        dumpCalls ++ [Comp.validator]⟩
    else
      let found := findSensorTriple payload
      ⟨[("sensor", TopVal.dict (sensorEntries found.1 found.2.1 found.2.2.1 found.2.2.2)),
          ("device_info", TopVal.dict []), ("historical_data", TopVal.list []),
          ("timestamp", TopVal.none)],
        dumpLog, dumpCalls ++ [Comp.validator, Comp.extractor]⟩

/-- The `sensor` entry of a result dictionary, as a list of key-value
pairs. -/
def sensorOf (r : List (String × TopVal)) : List (String × SVal) :=
  match r.lookup "sensor" with
  | some (TopVal.dict es) => es
  | _ => []

end Qingping

namespace Qingping

/-- A 15-byte frame with the CGAU header (11 trailing NUL bytes). -/
def frame15 : Bytes := [67, 71, 65, 85, 0, 0, 0, 0, 0, 0, 0, 0, 0, 0, 0]

/-- A 13-byte frame with the CGAU header (9 trailing NUL bytes). -/
def frame13 : Bytes := [67, 71, 65, 85, 0, 0, 0, 0, 0, 0, 0, 0, 0]

/-- A well-formed 19-byte frame: CGAU header, 9 filler bytes, then the
little-endian uint16 values 250, 550, 800 at bytes 13-18. -/
def frame19 : Bytes := [67, 71, 65, 85, 0, 0, 0, 0, 0, 0, 0, 0, 0, 250, 0, 38, 2, 32, 3]

/-- A 3-byte frame without the CGAU header. -/
def frame3 : Bytes := [1, 2, 3]

theorem temperature_eq (t : ℕ) : temperature t = (t : ℚ) / 10 := by
  unfold temperature pyRound1
  rw [div_mul_cancel₀ _ (by norm_num : (10 : ℚ) ≠ 0), round_natCast, Int.cast_natCast]

theorem humidity_eq (h : ℕ) : humidity h = ((h / 10 : ℕ) : ℤ) := by
  unfold humidity pyIntTrunc
  rw [if_pos (by positivity), ← Int.natCast_floor_eq_floor (by positivity),
    Nat.floor_div_ofNat, Nat.floor_natCast]

theorem pySlice_zero (p : Bytes) (b : Nat) : pySlice p 0 b = p.take b := by
  simp [pySlice]

theorem parsePayload_cgau (dbg : Bool) (p : Bytes) (hne : p ≠ [])
    (h4 : pySlice p 0 4 = cgau) :
    parsePayload dbg p =
      ⟨[("sensor", TopVal.dict (sensorEntries 13 (intFromBytesLE (pySlice p 13 15))
            (intFromBytesLE (pySlice p 15 17)) (intFromBytesLE (pySlice p 17 19)))),
          ("device_info", TopVal.dict []), ("historical_data", TopVal.list []),
          ("timestamp", TopVal.none)],
        (if dbg then debugPayload p else []),
        (if dbg then [Comp.dumper] else []) ++ [Comp.validator, Comp.extractor]⟩ := by
  unfold parsePayload findSensorTriple
  rw [if_neg hne, if_neg (not_not_intro h4)]

theorem parsePayload_badHeader (dbg : Bool) (p : Bytes) (hne : p ≠ [])
    (h4 : pySlice p 0 4 ≠ cgau) :
    parsePayload dbg p =
      ⟨emptyResult,
        (if dbg then debugPayload p else []) ++ [LogEvent.unknownHeader (pySlice p 0 4)],
        (if dbg then [Comp.dumper] else []) ++ [Comp.validator]⟩ := by
  unfold parsePayload
  rw [if_neg hne, if_pos h4]

theorem sensorOf_result (s : List (String × SVal)) (rest : List (String × TopVal)) :
    sensorOf (("sensor", TopVal.dict s) :: rest) = s := rfl

theorem ne_nil_of_header (p : Bytes) (h4 : pySlice p 0 4 = cgau) : p ≠ [] := by
  intro h
  rw [h] at h4
  exact absurd h4 (by decide)

theorem short_take_ne_cgau (p : Bytes) (hlt : p.length < 4) : pySlice p 0 4 ≠ cgau := by
  intro h
  have hl : (pySlice p 0 4).length = cgau.length := by rw [h]
  rw [pySlice_zero, List.length_take] at hl
  simp [cgau] at hl
  omega

end Qingping

namespace Qingping

/-- C1 counterexample: on the 15-byte CGAU frame the claim fails — the
returned sensor mapping is NOT empty (parse_payload populates it from the
silently shortened slices instead of returning the canonical empty
result). -/
theorem C1_counterexample : sensorOf (parsePayload false frame15).result ≠ [] := by
  intro h
  have h7 : (sensorOf (parsePayload false frame15).result).length = 7 := rfl
  rw [h] at h7
  exact absurd h7 (by decide)

/-- C1 (amended): for every frame that starts with the magic bytes CGAU but
whose length is less than 19 bytes, parse_payload returns without reading
out of bounds or crashing, but the sensor mapping is populated — with the
fixed offset 13 and raw values decoded from the silently shortened slices —
rather than being the canonical empty result. -/
theorem C1_short_cgau_frame_populates_sensor (dbg : Bool) (p : Bytes)
    (h4 : pySlice p 0 4 = cgau) (_hlen : p.length < 19) :
    (parsePayload dbg p).result =
      [("sensor", TopVal.dict (sensorEntries 13 (intFromBytesLE (pySlice p 13 15))
          (intFromBytesLE (pySlice p 15 17)) (intFromBytesLE (pySlice p 17 19)))),
        ("device_info", TopVal.dict []), ("historical_data", TopVal.list []),
        ("timestamp", TopVal.none)] ∧
      sensorOf (parsePayload dbg p).result ≠ [] := by
  have hne := ne_nil_of_header p h4
  rw [parsePayload_cgau dbg p hne h4]
  exact ⟨rfl, by simp [sensorOf_result, sensorEntries]⟩

/-- C1 witness: the amended statement instantiated at the 15-byte frame. -/
theorem C1_witness :
    (parsePayload false frame15).result =
      [("sensor", TopVal.dict (sensorEntries 13 (intFromBytesLE (pySlice frame15 13 15))
          (intFromBytesLE (pySlice frame15 15 17)) (intFromBytesLE (pySlice frame15 17 19)))),
        ("device_info", TopVal.dict []), ("historical_data", TopVal.list []),
        ("timestamp", TopVal.none)] ∧
      sensorOf (parsePayload false frame15).result ≠ [] :=
  C1_short_cgau_frame_populates_sensor false frame15 (by decide) (by decide)

/-- C2 counterexample: on the well-formed 19-byte frame the sensor mapping
has no key named carbon_dioxide and its key list is not the claimed one —
the code uses the key names co2_ppm and co2_raw. -/
theorem C2_counterexample :
    (sensorOf (parsePayload false frame19).result).lookup "carbon_dioxide" = Option.none ∧
      (sensorOf (parsePayload false frame19).result).map Prod.fst ≠
        ["temperature", "temperature_raw", "humidity", "humidity_raw",
          "carbon_dioxide", "carbon_dioxide_raw", "sensor_offset_bytes"] := by
  constructor
  · rfl
  · intro h
    have hk : (sensorOf (parsePayload false frame19).result).map Prod.fst =
        ["temperature", "temperature_raw", "humidity", "humidity_raw",
          "co2_ppm", "co2_raw", "sensor_offset_bytes"] := rfl
    rw [hk] at h
    exact absurd h (by decide)

/-- C2 (amended): for every frame of length at least 19 whose first 4 bytes
are CGAU and whose bytes 13-18 encode the little-endian uint16 values 250,
550, 800, parse_payload returns a sensor mapping containing temperature
25.0, humidity 55, co2_ppm 800 (with alias co2_raw) and
sensor_offset_bytes 13, the keys being exactly temperature,
temperature_raw, humidity, humidity_raw, co2_ppm, co2_raw,
sensor_offset_bytes, in that order. -/
theorem C2_well_formed_frame_decodes (dbg : Bool) (p : Bytes)
    (h4 : pySlice p 0 4 = cgau) (_hlen : 19 ≤ p.length)
    (ht : intFromBytesLE (pySlice p 13 15) = 250)
    (hh : intFromBytesLE (pySlice p 15 17) = 550)
    (hc : intFromBytesLE (pySlice p 17 19) = 800) :
    sensorOf (parsePayload dbg p).result =
      [("temperature", SVal.rat 25), ("temperature_raw", SVal.int 250),
        ("humidity", SVal.int 55), ("humidity_raw", SVal.int 550),
        ("co2_ppm", SVal.int 800), ("co2_raw", SVal.int 800),
        ("sensor_offset_bytes", SVal.int 13)] := by
  have hne := ne_nil_of_header p h4
  rw [parsePayload_cgau dbg p hne h4, sensorOf_result, sensorEntries, ht, hh, hc,
    temperature_eq, humidity_eq]
  norm_num

/-- C2 witness: the amended statement instantiated at the concrete
19-byte frame. -/
theorem C2_witness :
    sensorOf (parsePayload true frame19).result =
      [("temperature", SVal.rat 25), ("temperature_raw", SVal.int 250),
        ("humidity", SVal.int 55), ("humidity_raw", SVal.int 550),
        ("co2_ppm", SVal.int 800), ("co2_raw", SVal.int 800),
        ("sensor_offset_bytes", SVal.int 13)] :=
  C2_well_formed_frame_decodes true frame19 (by decide) (by decide) (by decide)
    (by decide) (by decide)

/-- C3: for every CGAU frame shorter than 19 bytes the sensor mapping is
still populated, from the three silently shortened slices at offset 13 (the
co2 slice is always shorter than its nominal 2 bytes); in particular a
13-byte CGAU frame yields temperature 0.0, humidity 0, co2_ppm 0 and
sensor_offset_bytes 13 rather than the empty result. -/
theorem C3_truncated_slices_still_populate (dbg : Bool) (p : Bytes)
    (h4 : pySlice p 0 4 = cgau) (_hlen : p.length < 19) :
    sensorOf (parsePayload dbg p).result =
      sensorEntries 13 (intFromBytesLE (pySlice p 13 15))
        (intFromBytesLE (pySlice p 15 17)) (intFromBytesLE (pySlice p 17 19)) ∧
      (pySlice p 17 19).length < 2 ∧
      (p.length = 13 →
        sensorOf (parsePayload dbg p).result =
          [("temperature", SVal.rat 0), ("temperature_raw", SVal.int 0),
            ("humidity", SVal.int 0), ("humidity_raw", SVal.int 0),
            ("co2_ppm", SVal.int 0), ("co2_raw", SVal.int 0),
            ("sensor_offset_bytes", SVal.int 13)]) := by
  have hne := ne_nil_of_header p h4
  rw [parsePayload_cgau dbg p hne h4, sensorOf_result]
  refine ⟨rfl, ?_, ?_⟩
  · simp only [pySlice, List.length_take, List.length_drop]
    omega
  · intro h13
    have hdrop : p.drop 13 = [] := by
      apply List.eq_nil_of_length_eq_zero
      simp [h13]
    have hs1 : pySlice p 13 15 = [] := by simp [pySlice, hdrop]
    have hs2 : pySlice p 15 17 = [] := by
      simp [pySlice, List.drop_eq_nil_iff, h13]
    have hs3 : pySlice p 17 19 = [] := by
      simp [pySlice, List.drop_eq_nil_iff, h13]
    rw [hs1, hs2, hs3]
    show sensorEntries 13 0 0 0 = _
    rw [sensorEntries, temperature_eq, humidity_eq]
    norm_num

/-- C3 witness: the statement instantiated at the 13-byte frame. -/
theorem C3_witness :
    sensorOf (parsePayload false frame13).result =
      sensorEntries 13 (intFromBytesLE (pySlice frame13 13 15))
        (intFromBytesLE (pySlice frame13 15 17)) (intFromBytesLE (pySlice frame13 17 19)) ∧
      (pySlice frame13 17 19).length < 2 ∧
      (frame13.length = 13 →
        sensorOf (parsePayload false frame13).result =
          [("temperature", SVal.rat 0), ("temperature_raw", SVal.int 0),
            ("humidity", SVal.int 0), ("humidity_raw", SVal.int 0),
            ("co2_ppm", SVal.int 0), ("co2_raw", SVal.int 0),
            ("sensor_offset_bytes", SVal.int 13)]) :=
  C3_truncated_slices_still_populate false frame13 (by decide) (by decide)

end Qingping

namespace Qingping

/-- C4: for every uint16 humidity raw code the normalized humidity is the
truncation toward zero of the raw code divided by 10; in particular 459 and
455 both yield 45, while nearest-integer rounding of 45.5 would give 46. -/
theorem C4_humidity_truncates (h : Nat) (_hle : h ≤ 65535) :
    humidity h = ((h / 10 : ℕ) : ℤ) ∧ humidity 459 = 45 ∧ humidity 455 = 45 ∧
      (round ((455 : ℚ) / 10) : ℤ) = 46 := by
  refine ⟨humidity_eq h, ?_, ?_, ?_⟩
  · rw [humidity_eq]; decide
  · rw [humidity_eq]; decide
  · norm_num [round_eq]

/-- C4 witness: the statement instantiated at raw code 459. -/
theorem C4_witness :
    humidity 459 = ((459 / 10 : ℕ) : ℤ) ∧ humidity 459 = 45 ∧ humidity 455 = 45 ∧
      (round ((455 : ℚ) / 10) : ℤ) = 46 :=
  C4_humidity_truncates 459 (by decide)

/-- C5: for every uint16 temperature raw code the normalized temperature
equals the raw code divided by 10 — the rounding to one decimal place is
exact here, since the quotient already has one decimal digit, so every
conventional tie-breaking rule agrees — and 10 times the result is a whole
number; in particular raw code 233 yields 23.3. -/
theorem C5_temperature_one_decimal (t : Nat) (_hle : t ≤ 65535) :
    temperature t = (t : ℚ) / 10 ∧ temperature t * 10 = (t : ℚ) ∧
      temperature 233 = 23.3 := by
  refine ⟨temperature_eq t, ?_, ?_⟩
  · rw [temperature_eq]
    field_simp
  · rw [temperature_eq]
    norm_num

/-- C5 witness: the statement instantiated at raw code 233. -/
theorem C5_witness :
    temperature 233 = (233 : ℚ) / 10 ∧ temperature 233 * 10 = (233 : ℚ) ∧
      temperature 233 = 23.3 :=
  C5_temperature_one_decimal 233 (by decide)

/-- C6: every non-empty frame that is shorter than 4 bytes or whose first 4
bytes differ from CGAU yields the canonical empty result without raising;
the rejection shows up only as an unknown-header event on the log channel,
not in the returned value. -/
theorem C6_bad_header_returns_empty (dbg : Bool) (p : Bytes) (hne : p ≠ [])
    (hbad : p.length < 4 ∨ p.take 4 ≠ cgau) :
    (parsePayload dbg p).result = emptyResult ∧
      LogEvent.unknownHeader (pySlice p 0 4) ∈ (parsePayload dbg p).log := by
  have h4 : pySlice p 0 4 ≠ cgau := by
    rcases hbad with hlt | hne4
    · exact short_take_ne_cgau p hlt
    · rw [pySlice_zero]; exact hne4
  rw [parsePayload_badHeader dbg p hne h4]
  exact ⟨rfl, by simp⟩

/-- C6 witness: the statement instantiated at the headerless 3-byte frame. -/
theorem C6_witness :
    (parsePayload true frame3).result = emptyResult ∧
      LogEvent.unknownHeader (pySlice frame3 0 4) ∈ (parsePayload true frame3).log :=
  C6_bad_header_returns_empty true frame3 (by decide) (Or.inl (by decide))

/-- C7: on an empty input frame parse_payload returns the canonical empty
shape immediately — the log is empty and no component (dumper, header
validator or field extractor) is invoked, even with the debug flag set. -/
theorem C7_empty_input_short_circuits (dbg : Bool) :
    parsePayload dbg [] = ⟨emptyResult, [], []⟩ := rfl

/-- C8: the decoded result is identical whether the diagnostic dump is
enabled or disabled — the dumper only writes to the log channel and never
participates in the outcome of decoding. -/
theorem C8_debug_noninterference (p : Bytes) :
    (parsePayload true p).result = (parsePayload false p).result := by
  by_cases h1 : p = []
  · rw [h1]; rfl
  · by_cases h2 : pySlice p 0 4 = cgau
    · rw [parsePayload_cgau true p h1 h2, parsePayload_cgau false p h1 h2]
    · rw [parsePayload_badHeader true p h1 h2, parsePayload_badHeader false p h1 h2]

/-- C9: for every byte-sequence input (and either debug setting)
parse_payload returns — it is a total function in the model, no reachable
operation raises — and the result is a mapping with exactly the four keys
sensor, device_info, historical_data and timestamp, in that order. -/
theorem C9_result_always_well_shaped (dbg : Bool) (p : Bytes) :
    ((parsePayload dbg p).result).map Prod.fst =
      ["sensor", "device_info", "historical_data", "timestamp"] := by
  by_cases h1 : p = []
  · rw [h1]; rfl
  · by_cases h2 : pySlice p 0 4 = cgau
    · rw [parsePayload_cgau dbg p h1 h2]; rfl
    · rw [parsePayload_badHeader dbg p h1 h2]; rfl

/-- C10: on every path the returned device_info is an empty mapping,
historical_data is an empty sequence and timestamp is unset; only the
sensor entry ever varies. -/
theorem C10_reserved_fields_stay_empty (dbg : Bool) (p : Bytes) :
    ∃ s, (parsePayload dbg p).result =
      [("sensor", s), ("device_info", TopVal.dict []),
        ("historical_data", TopVal.list []), ("timestamp", TopVal.none)] := by
  by_cases h1 : p = []
  · exact ⟨TopVal.dict [], by rw [h1]; rfl⟩
  · by_cases h2 : pySlice p 0 4 = cgau
    · exact ⟨TopVal.dict (sensorEntries 13 (intFromBytesLE (pySlice p 13 15))
        (intFromBytesLE (pySlice p 15 17)) (intFromBytesLE (pySlice p 17 19))),
        by rw [parsePayload_cgau dbg p h1 h2]⟩
    · exact ⟨TopVal.dict [], by rw [parsePayload_badHeader dbg p h1 h2]; rfl⟩

end Qingping
